import Mathlib

/-!
Verification of the Zirodelta agent-toolkit strategy engine.

This file gives a shallow embedding, over the rationals, of the strategy
core of the repository: `src/strategy/risk.ts` (risk profiles, risk
factors, opportunity scoring, position sizing, stop-out checks),
`src/strategy/balance.ts` (balance summaries, rebalancing suggestions,
capital checks, portfolio extraction) and `src/strategy/engine.ts`
(the recommendation orchestrator), and proves or refutes the claims of
the specification against it.

Modelling conventions:
- JavaScript numbers are modelled as `ℚ` (the code performs only field
  arithmetic, `Math.min` / `Math.max` / `Math.abs` / `Math.floor`);
  IEEE-754 rounding is outside the embedding.
- JavaScript objects used as string-keyed dictionaries (`balances`,
  `exchanges`) are modelled as association lists in insertion order;
  `obj[k]` is first-match lookup.
- The JavaScript or-default idiom `x || d` on numbers yields `d`
  exactly when `x` is falsy; for a number field that is when `x = 0`
  (`NaN` is not representable in `ℚ`). This is `jsOr` below.
- `Date.now()` and `new Date().toISOString()` are passed in as explicit
  parameters; `new Date(s).getTime()` on the portfolio timestamp is
  modelled by storing the timestamp directly as epoch milliseconds.
- `toFixed(n)` number formatting inside human-readable message strings
  is abstracted by `fmt` (plain `toString`); the surrounding text of
  every message is kept verbatim.
-/

namespace Zirodelta

/-- Abstraction of JavaScript number-to-string formatting (`toFixed`,
template interpolation) used inside human-readable messages. -/
def fmt (q : ℚ) : String := toString q

/-- The JavaScript idiom `x || d` for a number `x`: the default `d` is
used when `x` is falsy, i.e. when `x = 0` (NaN is outside the model). -/
def jsOr (x d : ℚ) : ℚ := if x = 0 then d else x

/-- The call `list.slice(0, endIdx)` of JavaScript: a negative end index
counts from the end of the list (`max(length + endIdx, 0)` elements),
a non-negative one takes `min(endIdx, length)` elements (`List.take`
already clamps at the length). -/
def jsSlice0 {α : Type} (endIdx : ℤ) (l : List α) : List α :=
  if endIdx < 0 then l.take ((l.length : ℤ) + endIdx).toNat
  else l.take endIdx.toNat

-- ===========================================================================
-- Data model (src/strategy/types.ts and src/sdk/types.ts)
-- ===========================================================================

/-- The three risk profile types (`RiskProfileType` in types.ts). -/
inductive RiskProfileType : Type
  | conservative
  | moderate
  | aggressive
deriving DecidableEq

/-- Risk profile preset settings (`RiskProfileSettings` in types.ts). -/
structure RiskProfileSettings : Type where
  type : RiskProfileType
  maxPositionSizePercent : ℚ
  riskWeight : ℚ
  minSpread : ℚ
  maxLeverage : ℚ
  stopLossPercent : ℚ
  diversificationMin : ℚ
deriving DecidableEq

/-- Per-exchange configuration (`ExchangeConfig` in types.ts; the
optional `apiKeyConfigured` field is never read by the engine and is
omitted). -/
structure ExchangeConfig : Type where
  enabled : Bool
deriving DecidableEq

/-- The agent profile (`AgentProfile` in types.ts). `balances` and
`exchanges` are JavaScript objects keyed by exchange name, modelled as
association lists in insertion order. -/
structure AgentProfile : Type where
  balances : List (String × ℚ)
  riskProfile : RiskProfileType
  dailyTarget : ℚ
  maxPositionSize : ℚ
  maxOpenPositions : ℕ
  minSpread : ℚ
  exchanges : List (String × ExchangeConfig)
  createdAt : Option String
  updatedAt : Option String
deriving DecidableEq

/-- A market opportunity (`Opportunity` in sdk/types.ts), restricted to
the fields the strategy engine reads. All numeric fields are declared
non-optional in the source type; the engine still guards
`liquidity_score`, `hours_to_funding` and `price_diff_pct` with
`|| default`. -/
structure Opportunity : Type where
  id : String
  symbol : String
  pair : String
  long_exchange : String
  short_exchange : String
  spread : ℚ
  price_diff_pct : ℚ
  liquidity_score : ℚ
  hours_to_funding : ℚ
deriving DecidableEq

/-- A currently open position (`CurrentPosition` in types.ts). -/
structure CurrentPosition : Type where
  executionId : String
  symbol : String
  pair : String
  longExchange : String
  shortExchange : String
  size : ℚ
  entrySpread : ℚ
  currentSpread : ℚ
  unrealizedPnl : ℚ
  unrealizedPnlPercent : ℚ
  hoursOpen : ℚ
  expectedDailyReturn : ℚ
deriving DecidableEq

/-- Risk factor vector (`RiskFactors` in risk.ts). -/
structure RiskFactors : Type where
  spreadRisk : ℚ
  volumeRisk : ℚ
  fundingTimeRisk : ℚ
  priceDeviation : ℚ
  overall : ℚ
deriving DecidableEq

/-- Result of `calculatePositionSize` in risk.ts. -/
structure PositionSize : Type where
  size : ℚ
  reasoning : List String
deriving DecidableEq

/-- Result of `shouldStopOut` in risk.ts. -/
structure StopOutCheck : Type where
  shouldStop : Bool
  reason : Option String
deriving DecidableEq

/-- A recommended opportunity (`RecommendedOpportunity` in types.ts);
the nested `exchange : {long, short}` record is flattened into two
fields. -/
structure RecommendedOpportunity : Type where
  opportunity : Opportunity
  recommendedSize : ℚ
  exchangeLong : String
  exchangeShort : String
  expectedReturn : ℚ
  riskScore : ℚ
  score : ℚ
  reasoning : List String
deriving DecidableEq

/-- Overall risk level of a recommendation set. -/
inductive RiskLevel : Type
  | low
  | medium
  | high
deriving DecidableEq

/-- The top-level recommendation object (`StrategyRecommendation` in
types.ts). -/
structure StrategyRecommendation : Type where
  opportunities : List RecommendedOpportunity
  expectedDailyReturn : ℚ
  riskLevel : RiskLevel
  capitalUtilization : ℚ
  progressToTarget : ℚ
  summary : String
  warnings : List String
deriving DecidableEq

/-- Target progress report (`TargetProgress` in types.ts). -/
structure TargetProgress : Type where
  dailyTarget : ℚ
  currentDailyReturn : ℚ
  progressPercent : ℚ
  positionsNeededForTarget : ℤ
  currentPositions : List CurrentPosition
  totalDeployed : ℚ
  totalAvailable : ℚ
  suggestions : List String
deriving DecidableEq

/-- Per-exchange balance record (`ExchangeBalance` in types.ts). -/
structure ExchangeBalance : Type where
  exchange : String
  total : ℚ
  available : ℚ
  allocated : ℚ
  margin : ℚ
deriving DecidableEq

/-- A rebalancing suggestion (`RebalanceSuggestion` in types.ts); the
source fields `from` / `to` are named `fromExchange` / `toExchange`
because `from` is a Lean keyword. -/
structure RebalanceSuggestion : Type where
  fromExchange : String
  toExchange : String
  amount : ℚ
  reason : String
deriving DecidableEq

/-- Balance summary (`BalanceSummary` in types.ts). -/
structure BalanceSummary : Type where
  balances : List ExchangeBalance
  totalCapital : ℚ
  totalAvailable : ℚ
  totalAllocated : ℚ
  rebalanceSuggestions : List RebalanceSuggestion
deriving DecidableEq

/-- A platform-side execution record (`Execution` in sdk/types.ts),
restricted to the fields `extractPositionsFromPortfolio` reads.
`created_at` is an ISO timestamp in the source, parsed with
`new Date(...).getTime()`; it is modelled directly as epoch
milliseconds. `status` is the status string (`running`, ...). -/
structure Execution : Type where
  id : String
  symbol : String
  pair : String
  long_exchange : String
  short_exchange : String
  input_amount : ℚ
  status : String
  created_at : ℚ
deriving DecidableEq

/-- PnL breakdown of an execution (`PnLBreakdown` in sdk/types.ts),
restricted to the fields the engine reads. -/
structure PnLBreakdown : Type where
  unrealized_pnl : ℚ
  total_pnl_pct : ℚ
deriving DecidableEq

/-- Funding breakdown of an execution (`FundingBreakdown` in
sdk/types.ts), restricted to the fields the engine reads. -/
structure FundingBreakdown : Type where
  net_funding : ℚ
deriving DecidableEq

/-- One portfolio entry (`PortfolioExecution` in sdk/types.ts); the
`long_position` / `short_position` legs are never read by the strategy
layer and are omitted. -/
structure PortfolioExecution : Type where
  execution : Execution
  pnl : PnLBreakdown
  funding : FundingBreakdown
deriving DecidableEq

/-- A portfolio response (`Portfolio` in sdk/types.ts); the `summary`
field is never read by the strategy layer and is omitted. -/
structure Portfolio : Type where
  executions : List PortfolioExecution
deriving DecidableEq

-- ===========================================================================
-- risk.ts : presets, risk factors, scoring
-- ===========================================================================

/-- The `RISK_PROFILES` constant of risk.ts, as a function from the
profile type (the record key) to the preset. -/
def RISK_PROFILES : RiskProfileType → RiskProfileSettings
  | .conservative =>
    { type := .conservative
      maxPositionSizePercent := 20
      riskWeight := 2
      minSpread := 0.05
      maxLeverage := 3
      stopLossPercent := 2
      diversificationMin := 5 }
  | .moderate =>
    { type := .moderate
      maxPositionSizePercent := 40
      riskWeight := 1
      minSpread := 0.03
      maxLeverage := 5
      stopLossPercent := 5
      diversificationMin := 3 }
  | .aggressive =>
    { type := .aggressive
      maxPositionSizePercent := 80
      riskWeight := 0.5
      minSpread := 0.01
      maxLeverage := 10
      stopLossPercent := 10
      diversificationMin := 1 }

/-- The `getRiskProfile` function of risk.ts. -/
def getRiskProfile (type : RiskProfileType) : RiskProfileSettings :=
  RISK_PROFILES type

/-- The `calculateRiskFactors` function of risk.ts. -/
def calculateRiskFactors (opportunity : Opportunity) : RiskFactors :=
  let spreadRisk := max 0 (100 - opportunity.spread * 100 * 10)
  let volumeRisk := 100 - jsOr opportunity.liquidity_score 50
  let hoursToFunding := jsOr opportunity.hours_to_funding 8
  let fundingTimeRisk := min 100 (hoursToFunding * 5)
  let priceDeviation := |jsOr opportunity.price_diff_pct 0| * 100
  let overall :=
    spreadRisk * 0.3 + volumeRisk * 0.3 + fundingTimeRisk * 0.2 +
      priceDeviation * 0.2
  { spreadRisk := spreadRisk
    volumeRisk := volumeRisk
    fundingTimeRisk := fundingTimeRisk
    priceDeviation := priceDeviation
    overall := overall }

/-- The `scoreOpportunity` function of risk.ts. -/
def scoreOpportunity (opportunity : Opportunity) (profile : AgentProfile) : ℚ :=
  let riskSettings := getRiskProfile profile.riskProfile
  let riskFactors := calculateRiskFactors opportunity
  let spreadScore := opportunity.spread * 100
  let volumeScore := jsOr opportunity.liquidity_score 50 / 10
  let riskPenalty := riskFactors.overall * riskSettings.riskWeight / 100
  let hoursToFunding := jsOr opportunity.hours_to_funding 8
  let timeBonus : ℚ :=
    if hoursToFunding < 2 then 5 else if hoursToFunding < 4 then 2 else 0
  let score := spreadScore - riskPenalty + volumeScore + timeBonus
  max 0 score

-- ===========================================================================
-- balance.ts : capital helpers (defined first, risk.ts inlines the same fold)
-- ===========================================================================

/-- The `getTotalCapital` function of balance.ts:
`Object.values(profile.balances).reduce((sum, b) => sum + b, 0)`.
The same fold is inlined at the top of `calculatePositionSize` in
risk.ts. -/
def getTotalCapital (profile : AgentProfile) : ℚ :=
  (profile.balances.map (fun kv => kv.2)).sum

/-- The lookup idiom `profile.balances[exchange] || 0` of risk.ts
(first-match lookup in the balances object, `0` when the key is
missing; a stored `0` also yields `0`). -/
def balanceOr0 (profile : AgentProfile) (exchange : String) : ℚ :=
  ((profile.balances.find? (fun kv => kv.1 == exchange)).map (fun kv => kv.2)).getD 0

-- ===========================================================================
-- risk.ts : position sizing
-- ===========================================================================

/-- Name of a risk profile type, as interpolated into message strings
(the TypeScript value is the string itself). -/
def riskProfileName : RiskProfileType → String
  | .conservative => "conservative"
  | .moderate => "moderate"
  | .aggressive => "aggressive"

/-- Value of the running `maxSize` of `calculatePositionSize` after its
first assignment: `totalCapital * (profile.maxPositionSize / 100)`. -/
def sizeStep1 (profile : AgentProfile) : ℚ :=
  getTotalCapital profile * (profile.maxPositionSize / 100)

/-- The `relevantCapital` local of `calculatePositionSize`:
`Math.min(longBalance, shortBalance) * 2`. -/
def relevantCapital (opportunity : Opportunity) (profile : AgentProfile) : ℚ :=
  min (balanceOr0 profile opportunity.long_exchange)
    (balanceOr0 profile opportunity.short_exchange) * 2

/-- The `riskMaxSize` local of `calculatePositionSize`:
`relevantCapital * (riskSettings.maxPositionSizePercent / 100)`. -/
def riskMaxSizeOf (opportunity : Opportunity) (profile : AgentProfile) : ℚ :=
  relevantCapital opportunity profile *
    ((getRiskProfile profile.riskProfile).maxPositionSizePercent / 100)

/-- Running `maxSize` after the risk-preset clamp
(`if (riskMaxSize < maxSize) maxSize = riskMaxSize`). -/
def sizeStep2 (opportunity : Opportunity) (profile : AgentProfile) : ℚ :=
  if riskMaxSizeOf opportunity profile < sizeStep1 profile then
    riskMaxSizeOf opportunity profile
  else sizeStep1 profile

/-- The `availablePerSlot` local of `calculatePositionSize`:
`totalCapital / profile.maxOpenPositions`; only evaluated when
`remainingSlots > 0`, so the divisor is positive there. -/
def availablePerSlotOf (profile : AgentProfile) : ℚ :=
  getTotalCapital profile / (profile.maxOpenPositions : ℚ)

/-- Running `maxSize` after the per-slot clamp
(`if (availablePerSlot < maxSize) maxSize = availablePerSlot`); only
reached when `remainingSlots > 0`. -/
def sizeStep3 (opportunity : Opportunity) (profile : AgentProfile) : ℚ :=
  if availablePerSlotOf profile < sizeStep2 opportunity profile then
    availablePerSlotOf profile
  else sizeStep2 opportunity profile

/-- Running `maxSize` after the opportunity-risk multiplier
(`*= 0.5` above 70 overall risk, `*= 0.75` above 50). -/
def sizeStep4 (opportunity : Opportunity) (profile : AgentProfile) : ℚ :=
  if (calculateRiskFactors opportunity).overall > 70 then
    sizeStep3 opportunity profile * 0.5
  else if (calculateRiskFactors opportunity).overall > 50 then
    sizeStep3 opportunity profile * 0.75
  else sizeStep3 opportunity profile

/-- The `calculatePositionSize` function of risk.ts. The sequentially
mutated `maxSize` variable is expressed through `sizeStep1` ..
`sizeStep4`; the `reasoning` audit trail is accumulated alongside
exactly as in the source. -/
def calculatePositionSize (opportunity : Opportunity) (profile : AgentProfile)
    (currentPositionsCount : ℕ) : PositionSize :=
  let reasoning1 : List String :=
    ["Max position size: " ++ fmt profile.maxPositionSize ++ "% of capital = $" ++
      fmt (sizeStep1 profile)]
  let reasoning2 :=
    if riskMaxSizeOf opportunity profile < sizeStep1 profile then
      reasoning1 ++
        ["Risk profile (" ++ riskProfileName profile.riskProfile ++ ") limits to $" ++
          fmt (sizeStep2 opportunity profile)]
    else reasoning1
  let remainingSlots : ℤ := (profile.maxOpenPositions : ℤ) - (currentPositionsCount : ℤ)
  if remainingSlots ≤ 0 then
    { size := 0
      reasoning := reasoning2 ++ ["Max positions reached - no new positions recommended"] }
  else
    let reasoning3 :=
      if availablePerSlotOf profile < sizeStep2 opportunity profile then
        reasoning2 ++
          ["Diversification: reserving capital for " ++ toString remainingSlots ++
            " more positions"]
      else reasoning2
    let reasoning4 :=
      if (calculateRiskFactors opportunity).overall > 70 then
        reasoning3 ++
          ["High risk opportunity (" ++ fmt (calculateRiskFactors opportunity).overall ++
            ") - reduced size by 50%"]
      else if (calculateRiskFactors opportunity).overall > 50 then
        reasoning3 ++
          ["Medium risk (" ++ fmt (calculateRiskFactors opportunity).overall ++
            ") - reduced size by 25%"]
      else reasoning3
    if sizeStep4 opportunity profile < 50 then
      { size := 0, reasoning := reasoning4 ++ ["Position too small (< $50) - skipping"] }
    else
      { size := ((⌊sizeStep4 opportunity profile⌋ : ℤ) : ℚ), reasoning := reasoning4 }

-- ===========================================================================
-- risk.ts : stop-out check
-- ===========================================================================

/-- The `shouldStopOut` function of risk.ts. -/
def shouldStopOut (position : CurrentPosition) (profile : AgentProfile) : StopOutCheck :=
  let riskSettings := getRiskProfile profile.riskProfile
  if position.unrealizedPnlPercent < -riskSettings.stopLossPercent then
    { shouldStop := true
      reason := some ("Loss (" ++ fmt position.unrealizedPnlPercent ++
        "%) exceeds stop loss (" ++ fmt riskSettings.stopLossPercent ++ "%)") }
  else if position.currentSpread < 0 ∧ position.currentSpread < -0.02 then
    { shouldStop := true
      reason := some ("Spread inverted to " ++ fmt (position.currentSpread * 100) ++ "%") }
  else
    { shouldStop := false, reason := none }

-- ===========================================================================
-- balance.ts : balance summary, rebalancing, capital checks
-- ===========================================================================

/-- Total capital allocated on one exchange by the open positions: the
`allocatedByExchange` accumulation object of `calculateBalanceSummary`
(each position adds `size / 2` to each of its two legs), modelled
pointwise by its lookup value. -/
def allocatedByExchange (positions : List CurrentPosition) (exchange : String) : ℚ :=
  (positions.map (fun pos =>
    (if pos.longExchange == exchange then pos.size / 2 else 0) +
      (if pos.shortExchange == exchange then pos.size / 2 else 0))).sum

/-- The `generateRebalanceSuggestions` function of balance.ts. The
JavaScript `sort((a, b) => b.available - a.available)` is a stable
descending sort on `available`, modelled by `List.mergeSort`. -/
def generateRebalanceSuggestions (balances : List ExchangeBalance) :
    List RebalanceSuggestion :=
  if balances.length < 2 then []
  else
    let sorted := balances.mergeSort (fun a b => decide (b.available ≤ a.available))
    let highest := sorted.headD ⟨"", 0, 0, 0, 0⟩
    let lowest := sorted.getLastD ⟨"", 0, 0, 0, 0⟩
    let diff := highest.available - lowest.available
    let threshold := highest.total * 0.3
    let firstBlock : List RebalanceSuggestion :=
      if diff > threshold ∧ diff > 100 then
        [{ fromExchange := highest.exchange
           toExchange := lowest.exchange
           amount := ((⌊diff / 2⌋ : ℤ) : ℚ)
           reason := "Balance " ++ highest.exchange ++ " and " ++ lowest.exchange ++
             " for better opportunity coverage" }]
      else []
    let secondBlock : List RebalanceSuggestion :=
      balances.flatMap (fun balance =>
        if balance.available < 100 ∧ balance.total > balance.available then
          match balances.find? (fun b =>
              b.exchange != balance.exchange && decide (b.available > 200)) with
          | some other =>
            [{ fromExchange := other.exchange
               toExchange := balance.exchange
               amount := 100
               reason := balance.exchange ++ " running low on available capital" }]
          | none => []
        else [])
    firstBlock ++ secondBlock

/-- The `calculateBalanceSummary` function of balance.ts. -/
def calculateBalanceSummary (profile : AgentProfile)
    (positions : List CurrentPosition) : BalanceSummary :=
  let balances : List ExchangeBalance := profile.balances.map (fun kv =>
    let allocated := allocatedByExchange positions kv.1
    let available := max 0 (kv.2 - allocated)
    { exchange := kv.1
      total := kv.2
      available := available
      allocated := allocated
      margin := if allocated > 0 then allocated * 0.2 else 0 })
  let totalCapital := (balances.map (fun b => b.total)).sum
  let totalAvailable := (balances.map (fun b => b.available)).sum
  let totalAllocated := (balances.map (fun b => b.allocated)).sum
  { balances := balances
    totalCapital := totalCapital
    totalAvailable := totalAvailable
    totalAllocated := totalAllocated
    rebalanceSuggestions := generateRebalanceSuggestions balances }

/-- Result of `hasCapitalFor` in balance.ts. -/
structure CapitalCheck : Type where
  hasCapital : Bool
  reason : Option String
deriving DecidableEq

/-- The `hasCapitalFor` function of balance.ts. -/
def hasCapitalFor (profile : AgentProfile) (positions : List CurrentPosition)
    (longExchange shortExchange : String) (size : ℚ) : CapitalCheck :=
  let summary := calculateBalanceSummary profile positions
  let longBalance := summary.balances.find? (fun b => b.exchange == longExchange)
  let shortBalance := summary.balances.find? (fun b => b.exchange == shortExchange)
  let neededPerExchange := size / 2
  match longBalance with
  | none =>
    { hasCapital := false
      reason := some ("No balance configured for " ++ longExchange) }
  | some lb =>
    match shortBalance with
    | none =>
      { hasCapital := false
        reason := some ("No balance configured for " ++ shortExchange) }
    | some sb =>
      if lb.available < neededPerExchange then
        { hasCapital := false
          reason := some ("Insufficient on " ++ longExchange ++ ": need $" ++
            fmt neededPerExchange ++ ", have $" ++ fmt lb.available) }
      else if sb.available < neededPerExchange then
        { hasCapital := false
          reason := some ("Insufficient on " ++ shortExchange ++ ": need $" ++
            fmt neededPerExchange ++ ", have $" ++ fmt sb.available) }
      else
        { hasCapital := true, reason := none }

/-- The `extractPositionsFromPortfolio` function of balance.ts. The
`Date.now()` call is passed in as `now` (epoch milliseconds). -/
def extractPositionsFromPortfolio (now : ℚ) (portfolio : Portfolio) :
    List CurrentPosition :=
  (portfolio.executions.filter (fun e => e.execution.status == "running")).map
    (fun e =>
      let hoursOpen := (now - e.execution.created_at) / (1000 * 60 * 60)
      let estimatedDailyReturn :=
        e.funding.net_funding / e.execution.input_amount * 100 * 3
      { executionId := e.execution.id
        symbol := e.execution.symbol
        pair := e.execution.pair
        longExchange := e.execution.long_exchange
        shortExchange := e.execution.short_exchange
        size := e.execution.input_amount
        entrySpread := 0
        currentSpread := 0
        unrealizedPnl := e.pnl.unrealized_pnl
        unrealizedPnlPercent := e.pnl.total_pnl_pct * 100
        hoursOpen := hoursOpen
        expectedDailyReturn := estimatedDailyReturn })

/-- The `getDeployedCapital` function of balance.ts. -/
def getDeployedCapital (positions : List CurrentPosition) : ℚ :=
  (positions.map (fun p => p.size)).sum

-- ===========================================================================
-- engine.ts : the strategy engine
-- ===========================================================================

/-- Mutable state of a `StrategyEngine` instance: the configured profile
(if any) and the cached position snapshot. -/
structure EngineState : Type where
  profile : Option AgentProfile
  currentPositions : List CurrentPosition
deriving DecidableEq

/-- Error message thrown by engine methods that require a configured
profile. -/
def noProfileError : String := "No profile configured. Call setProfile first."

/-- Warning emitted by `getRecommendations` when `remainingSlots === 0`. -/
def maxPositionsWarning : String :=
  "Maximum positions reached. Close a position to open new ones."

/-- Lookup idiom `profile.exchanges[exchange]?.enabled ?? false` of
`analyzeOpportunity`. -/
def exchangeEnabled (profile : AgentProfile) (exchange : String) : Bool :=
  ((profile.exchanges.find? (fun kv => kv.1 == exchange)).map
    (fun kv => kv.2.enabled)).getD false

/-- The `analyzeOpportunity` method of engine.ts, with the engine state
(`this.profile`, already known to be configured, and
`this.currentPositions`) passed explicitly. -/
def analyzeOpportunity (profile : AgentProfile) (positions : List CurrentPosition)
    (opportunity : Opportunity) : Option RecommendedOpportunity :=
  if opportunity.spread < profile.minSpread then none
  else
    let longEnabled := exchangeEnabled profile opportunity.long_exchange
    let shortEnabled := exchangeEnabled profile opportunity.short_exchange
    if !longEnabled || !shortEnabled then none
    else
      let sized := calculatePositionSize opportunity profile positions.length
      if sized.size = 0 then none
      else
        let capitalCheck := hasCapitalFor profile positions
          opportunity.long_exchange opportunity.short_exchange sized.size
        if !capitalCheck.hasCapital then none
        else
          let score := scoreOpportunity opportunity profile
          let riskFactors := calculateRiskFactors opportunity
          let expectedReturn :=
            opportunity.spread * 100 / 365 * (sized.size / getTotalCapital profile)
          some
            { opportunity := opportunity
              recommendedSize := sized.size
              exchangeLong := opportunity.long_exchange
              exchangeShort := opportunity.short_exchange
              expectedReturn := expectedReturn
              riskScore := riskFactors.overall
              score := score
              reasoning := sized.reasoning }

/-- The filter / map / sort pipeline of `getRecommendations` producing
the `scored` candidate list: keep opportunities whose spread reaches
`minSpread`, analyze each, drop the `null` results, and sort descending
by score (`sort((a, b) => b.score - a.score)`, a stable sort, modelled
by `List.mergeSort`). -/
def scoredCandidates (profile : AgentProfile) (positions : List CurrentPosition)
    (opportunities : List Opportunity) : List RecommendedOpportunity :=
  ((opportunities.filter (fun opp => profile.minSpread ≤ opp.spread)).filterMap
    (analyzeOpportunity profile positions)).mergeSort
      (fun a b => decide (b.score ≤ a.score))

/-- The `getCurrentProjectedReturn` method of engine.ts. -/
def getCurrentProjectedReturn (positions : List CurrentPosition) : ℚ :=
  (positions.map (fun pos => pos.expectedDailyReturn)).sum

/-- The `generateSummary` method of engine.ts. -/
def generateSummary (positions : List CurrentPosition)
    (recommendations : List RecommendedOpportunity) (expectedReturn : ℚ)
    (progressPercent : ℚ) (utilization : ℚ) : String :=
  if recommendations.length = 0 ∧ positions.length = 0 then
    "No positions and no recommendations. Configure exchanges and balances to get started."
  else if recommendations.length = 0 then
    toString positions.length ++ " active position(s), " ++ fmt progressPercent ++
      "% toward daily target. No new recommendations."
  else
    let totalSize := (recommendations.map (fun r => r.recommendedSize)).sum
    "Found " ++ toString recommendations.length ++ " opportunity(ies) for $" ++
      fmt totalSize ++ ". Expected daily return: " ++ fmt expectedReturn ++ "% (" ++
      fmt progressPercent ++ "% of target). Capital utilization: " ++
      fmt utilization ++ "%."

/-- The warning-assembly block of `getRecommendations` (engine.ts lines
"Generate warnings" onward), in push order: the positions-maxed warning
(exactly when `remainingSlots === 0`), the low-utilization warning, the
below-target warning, and one stop-out warning per flagged position. -/
def recommendationWarnings (profile : AgentProfile)
    (positions : List CurrentPosition) (remainingSlots : ℤ)
    (capitalUtilization progressToTarget : ℚ)
    (selectedOpportunities : List RecommendedOpportunity) : List String :=
  (if remainingSlots = 0 then [maxPositionsWarning] else []) ++
  ((if capitalUtilization < 50 ∧ selectedOpportunities.length = 0 then
    ["Low capital utilization with no recommendations. Consider lowering min spread."]
  else []) ++
  ((if progressToTarget < 50 then
    ["Only at " ++ fmt progressToTarget ++ "% of daily target."]
  else []) ++
  positions.filterMap (fun pos =>
    let stopCheck := shouldStopOut pos profile
    if stopCheck.shouldStop then
      some ("⚠️ " ++ pos.symbol ++ ": " ++ stopCheck.reason.getD "")
    else none)))

/-- Pure core of the `getRecommendations` method of engine.ts: the
computation performed after the positions have been refreshed and the
opportunities fetched. -/
def getRecommendationsCore (profile : AgentProfile)
    (positions : List CurrentPosition) (opportunities : List Opportunity) :
    StrategyRecommendation :=
  let scored := scoredCandidates profile positions opportunities
  let remainingSlots : ℤ := (profile.maxOpenPositions : ℤ) - (positions.length : ℤ)
  let selectedOpportunities := jsSlice0 remainingSlots scored
  let expectedDailyReturn :=
    (selectedOpportunities.map (fun rec => rec.expectedReturn)).sum +
      getCurrentProjectedReturn positions
  let totalCapital := getTotalCapital profile
  let currentlyDeployed := getDeployedCapital positions
  let newDeployment := (selectedOpportunities.map (fun rec => rec.recommendedSize)).sum
  let capitalUtilization :=
    if totalCapital > 0 then (currentlyDeployed + newDeployment) / totalCapital * 100
    else 0
  let progressToTarget :=
    if profile.dailyTarget > 0 then expectedDailyReturn / profile.dailyTarget * 100
    else 0
  let avgRiskScore :=
    if scored.length > 0 then
      (scored.map (fun r => r.riskScore)).sum / (scored.length : ℚ)
    else 50
  let riskLevel :=
    if avgRiskScore < 30 then RiskLevel.low
    else if avgRiskScore < 60 then RiskLevel.medium
    else RiskLevel.high
  let warnings := recommendationWarnings profile positions remainingSlots
    capitalUtilization progressToTarget selectedOpportunities
  let summary := generateSummary positions selectedOpportunities expectedDailyReturn
    progressToTarget capitalUtilization
  { opportunities := selectedOpportunities
    expectedDailyReturn := expectedDailyReturn
    riskLevel := riskLevel
    capitalUtilization := capitalUtilization
    progressToTarget := progressToTarget
    summary := summary
    warnings := warnings }

/-- The `refreshPositions` method of engine.ts: replace the snapshot
with the extracted portfolio positions, keeping the existing snapshot
when the portfolio fetch fails (`catch {}`). -/
def refreshedPositions (now : ℚ) (prev : List CurrentPosition)
    (portfolioResult : Except Unit Portfolio) : List CurrentPosition :=
  match portfolioResult with
  | .ok portfolio => extractPositionsFromPortfolio now portfolio
  | .error _ => prev

/-- Deduplication of fetched opportunities by `id` in
`fetchAllOpportunities` (a `Set`-based filter keeping the first
occurrence), with the set of already-seen ids made explicit. -/
def dedupById : List Opportunity → List String → List Opportunity
  | [], _ => []
  | opp :: rest, seen =>
    if seen.contains opp.id then dedupById rest seen
    else opp :: dedupById rest (opp.id :: seen)

/-- The `fetchAllOpportunities` method of engine.ts, with the client
modelled as a function from the exchange-pair string to the fetch
result (the `limit: 20, sortby: 'spread'` request parameters live on
the collaborator side). A failing pair is skipped
(`catch { // Skip this pair if it fails }`). -/
def fetchAllOpportunities (profile : AgentProfile)
    (fetch : String → Except Unit (List Opportunity)) : List Opportunity :=
  let exchanges := (profile.exchanges.filter (fun kv => kv.2.enabled)).map
    (fun kv => kv.1)
  let enabledPairs := exchanges.flatMap (fun ex1 =>
    exchanges.filterMap (fun ex2 =>
      if ex1 == ex2 then none else some (ex1 ++ "-" ++ ex2)))
  let allOpportunities := enabledPairs.flatMap (fun pair =>
    match fetch pair with
    | .ok opps => opps
    | .error _ => [])
  dedupById allOpportunities []

/-- The `getRecommendations` method of engine.ts: fails fast when no
profile is configured, otherwise refreshes positions (soft-fail),
fetches opportunities (per-pair soft-fail) and runs the pure core.
Returns the recommendation together with the updated engine state. -/
def getRecommendationsE (st : EngineState) (now : ℚ)
    (portfolioResult : Except Unit Portfolio)
    (fetch : String → Except Unit (List Opportunity)) :
    Except String (StrategyRecommendation × EngineState) :=
  match st.profile with
  | none => .error noProfileError
  | some profile =>
    let positions := refreshedPositions now st.currentPositions portfolioResult
    let opportunities := fetchAllOpportunities profile fetch
    .ok (getRecommendationsCore profile positions opportunities,
      { st with currentPositions := positions })

/-- The `generateTargetSuggestions` method of engine.ts. -/
def generateTargetSuggestions (positions : List CurrentPosition)
    (progressPercent : ℚ) (positionsNeeded : ℤ) (availableCapital : ℚ) :
    List String :=
  (if progressPercent ≥ 100 then
    ["🎯 Daily target reached! Consider holding current positions."]
  else if progressPercent ≥ 75 then
    ["Almost there! Add " ++ toString positionsNeeded ++ " more position(s) to hit target."]
  else if progressPercent ≥ 50 then
    ["Making progress. " ++ toString positionsNeeded ++ " more positions needed."]
  else
    ["Need to ramp up. Consider adding " ++ toString positionsNeeded ++ " positions."]) ++
  (if availableCapital < 100 then
    ["Low available capital. Consider closing underperforming positions."]
  else []) ++
  (if positions.length = 0 then
    ["No active positions. Open your first position to start earning."]
  else [])

/-- Pure core of the `checkTargetProgress` method of engine.ts. -/
def checkTargetProgressCore (profile : AgentProfile)
    (positions : List CurrentPosition) : TargetProgress :=
  let currentDailyReturn := getCurrentProjectedReturn positions
  let progressPercent :=
    if profile.dailyTarget > 0 then currentDailyReturn / profile.dailyTarget * 100
    else 0
  let totalCapital := getTotalCapital profile
  let deployed := getDeployedCapital positions
  let available := totalCapital - deployed
  let avgReturnPerPosition :=
    if positions.length > 0 then currentDailyReturn / (positions.length : ℚ)
    else 0.2
  let remainingReturn := max 0 (profile.dailyTarget - currentDailyReturn)
  let positionsNeeded : ℤ :=
    if avgReturnPerPosition > 0 then ⌈remainingReturn / avgReturnPerPosition⌉ else 0
  let suggestions :=
    generateTargetSuggestions positions progressPercent positionsNeeded available
  { dailyTarget := profile.dailyTarget
    currentDailyReturn := currentDailyReturn
    progressPercent := progressPercent
    positionsNeededForTarget := positionsNeeded
    currentPositions := positions
    totalDeployed := deployed
    totalAvailable := available
    suggestions := suggestions }

/-- The `checkTargetProgress` method of engine.ts. -/
def checkTargetProgressE (st : EngineState) (now : ℚ)
    (portfolioResult : Except Unit Portfolio) :
    Except String (TargetProgress × EngineState) :=
  match st.profile with
  | none => .error noProfileError
  | some profile =>
    let positions := refreshedPositions now st.currentPositions portfolioResult
    .ok (checkTargetProgressCore profile positions,
      { st with currentPositions := positions })

/-- The `setRiskProfile` method of engine.ts; the
`new Date().toISOString()` stamp is passed in as `now`. -/
def setRiskProfileE (st : EngineState) (type : RiskProfileType) (now : String) :
    Except String EngineState :=
  match st.profile with
  | none => .error noProfileError
  | some profile =>
    let riskSettings := getRiskProfile type
    let profile2 : AgentProfile :=
      { profile with
        riskProfile := type
        minSpread := riskSettings.minSpread
        updatedAt := some now }
    .ok { st with profile := some profile2 }

/-- The `setDailyTarget` method of engine.ts. -/
def setDailyTargetE (st : EngineState) (target : ℚ) (now : String) :
    Except String EngineState :=
  match st.profile with
  | none => .error noProfileError
  | some profile =>
    if target < 0 ∨ target > 100 then
      .error "Daily target must be between 0 and 100%"
    else
      let profile2 : AgentProfile :=
        { profile with dailyTarget := target, updatedAt := some now }
      .ok { st with profile := some profile2 }

-- ===========================================================================
-- Concrete fixtures used by witnesses and counterexamples
-- ===========================================================================

/-- Sample opportunity of spec section 8 example: spread 5%, liquidity
score 80, one hour to funding, no price deviation. Its risk overall is
22. -/
def sampleOpportunity : Opportunity :=
  { id := "opp-1"
    symbol := "BTCUSDT"
    pair := "BTCUSDT"
    long_exchange := "bybit"
    short_exchange := "kucoin"
    spread := 0.05
    price_diff_pct := 0
    liquidity_score := 80
    hours_to_funding := 1 }

/-- Sample opportunity whose `liquidity_score` is present and equal to
zero (a falsy value for the JavaScript `||` default). -/
def zeroLiquidityOpportunity : Opportunity :=
  { sampleOpportunity with id := "opp-2", liquidity_score := 0 }

/-- Sample profile: $1000 on each of two enabled exchanges,
conservative risk, 20% max position size, at most 5 open positions. -/
def sampleProfile : AgentProfile :=
  { balances := [("bybit", 1000), ("kucoin", 1000)]
    riskProfile := .conservative
    dailyTarget := 1
    maxPositionSize := 20
    maxOpenPositions := 5
    minSpread := 0.03
    exchanges := [("bybit", ⟨true⟩), ("kucoin", ⟨true⟩)]
    createdAt := none
    updatedAt := none }

/-- Sample open position that is deep in loss with an inverted spread. -/
def losingPosition : CurrentPosition :=
  { executionId := "exec-1"
    symbol := "BTCUSDT"
    pair := "BTCUSDT"
    longExchange := "bybit"
    shortExchange := "kucoin"
    size := 100
    entrySpread := 0.03
    currentSpread := -0.05
    unrealizedPnl := -5
    unrealizedPnlPercent := -5
    hoursOpen := 4
    expectedDailyReturn := 0.1 }

-- ===========================================================================
-- C1 : calculateRiskFactors formulas
-- ===========================================================================

/-- C1 (counterexample): the claim says the liquidity default applies
only when the field is absent, so for a present `liquidity_score = 0`
it predicts `volumeRisk = 100 - 0 = 100`; the code computes
`100 - (0 || 50) = 50` because `0` is falsy under `||`. -/
theorem calculateRiskFactors_liq_zero_cex :
    (calculateRiskFactors zeroLiquidityOpportunity).volumeRisk ≠
      100 - zeroLiquidityOpportunity.liquidity_score := by
  simp [calculateRiskFactors, jsOr, zeroLiquidityOpportunity, sampleOpportunity]

/-- C1 (amended): for every opportunity `calculateRiskFactors` returns
`spreadRisk = max 0 (100 - spread * 1000)`,
`volumeRisk = 100 - liquidity_score` with the default 50 applying when
the field is zero (JavaScript falsy, which also covers an absent
field), `fundingTimeRisk = min 100 (hours_to_funding * 5)` with the
default 8 applying when the field is zero, `priceDeviation =
|price_diff_pct| * 100`, and `overall = 0.3 * spreadRisk +
0.3 * volumeRisk + 0.2 * fundingTimeRisk + 0.2 * priceDeviation`. The
function is total (never errors) and pure. -/
theorem calculateRiskFactors_spec (opportunity : Opportunity) :
    (calculateRiskFactors opportunity).spreadRisk =
      max 0 (100 - opportunity.spread * 1000) ∧
    (calculateRiskFactors opportunity).volumeRisk =
      100 - (if opportunity.liquidity_score = 0 then 50
        else opportunity.liquidity_score) ∧
    (calculateRiskFactors opportunity).fundingTimeRisk =
      min 100 ((if opportunity.hours_to_funding = 0 then 8
        else opportunity.hours_to_funding) * 5) ∧
    (calculateRiskFactors opportunity).priceDeviation =
      |opportunity.price_diff_pct| * 100 ∧
    (calculateRiskFactors opportunity).overall =
      0.3 * (calculateRiskFactors opportunity).spreadRisk +
        0.3 * (calculateRiskFactors opportunity).volumeRisk +
        0.2 * (calculateRiskFactors opportunity).fundingTimeRisk +
        0.2 * (calculateRiskFactors opportunity).priceDeviation := by
  unfold calculateRiskFactors jsOr
  refine ⟨by ring_nf, rfl, rfl, ?_, by ring⟩
  by_cases h : opportunity.price_diff_pct = 0 <;> simp [h]

-- ===========================================================================
-- C3 : risk weight inversion
-- ===========================================================================

/-- C3: for an opportunity with positive overall risk and two profiles
identical except for the risk profile type, the aggressive score is at
least the conservative score (risk weight 0.5 versus 2.0 gives a
smaller risk penalty). -/
theorem scoreOpportunity_riskWeight_inversion (opportunity : Opportunity)
    (profile : AgentProfile)
    (h : 0 < (calculateRiskFactors opportunity).overall) :
    scoreOpportunity opportunity { profile with riskProfile := .conservative } ≤
      scoreOpportunity opportunity { profile with riskProfile := .aggressive } := by
  unfold scoreOpportunity getRiskProfile RISK_PROFILES
  apply max_le_max le_rfl
  have h2 : (calculateRiskFactors opportunity).overall * 0.5 / 100 ≤
      (calculateRiskFactors opportunity).overall * 2 / 100 := by linarith
  simp only []
  linarith

/-- C3 (witness): the sample opportunity has overall risk 22 > 0, and
the aggressive score dominates the conservative one on it. -/
theorem scoreOpportunity_riskWeight_inversion_witness :
    0 < (calculateRiskFactors sampleOpportunity).overall ∧
      scoreOpportunity sampleOpportunity
          { sampleProfile with riskProfile := .conservative } ≤
        scoreOpportunity sampleOpportunity
          { sampleProfile with riskProfile := .aggressive } := by
  have h : 0 < (calculateRiskFactors sampleOpportunity).overall := by
    simp [calculateRiskFactors, jsOr, sampleOpportunity]
    norm_num
  exact ⟨h, scoreOpportunity_riskWeight_inversion sampleOpportunity sampleProfile h⟩

-- ===========================================================================
-- C4 : stop-out condition and priority
-- ===========================================================================

/-- C4: `shouldStopOut` triggers exactly when the unrealized loss
exceeds the preset stop-loss percentage or the current spread is
inverted below -2%, and when both conditions hold the reason is the
loss-exceeds-stop-loss message (the loss check is evaluated first). -/
theorem shouldStopOut_spec (position : CurrentPosition) (profile : AgentProfile) :
    ((shouldStopOut position profile).shouldStop = true ↔
      position.unrealizedPnlPercent <
          -(getRiskProfile profile.riskProfile).stopLossPercent ∨
        position.currentSpread < -0.02) ∧
    (position.unrealizedPnlPercent <
        -(getRiskProfile profile.riskProfile).stopLossPercent →
      position.currentSpread < -0.02 →
      (shouldStopOut position profile).reason =
        some ("Loss (" ++ fmt position.unrealizedPnlPercent ++
          "%) exceeds stop loss (" ++
          fmt (getRiskProfile profile.riskProfile).stopLossPercent ++ "%)")) := by
  unfold shouldStopOut
  by_cases h1 : position.unrealizedPnlPercent <
      -(getRiskProfile profile.riskProfile).stopLossPercent
  · simp [h1]
  · have h3 : position.currentSpread < -0.02 → position.currentSpread < 0 := by
      intro h
      linarith [show (-0.02 : ℚ) < 0 by norm_num]
    by_cases h2 : position.currentSpread < -0.02
    · simp [h1, h2, h3 h2]
    · simp [h1, h2]

/-- C4 (witness): a position losing 5% with spread -0.05 under the
conservative preset satisfies both triggers and the returned reason is
the loss message. -/
theorem shouldStopOut_spec_witness :
    losingPosition.unrealizedPnlPercent <
        -(getRiskProfile sampleProfile.riskProfile).stopLossPercent ∧
      losingPosition.currentSpread < -0.02 ∧
      (shouldStopOut losingPosition sampleProfile).reason =
        some ("Loss (" ++ fmt losingPosition.unrealizedPnlPercent ++
          "%) exceeds stop loss (" ++
          fmt (getRiskProfile sampleProfile.riskProfile).stopLossPercent ++ "%)") := by
  have h1 : losingPosition.unrealizedPnlPercent <
      -(getRiskProfile sampleProfile.riskProfile).stopLossPercent := by
    simp [losingPosition, sampleProfile, getRiskProfile, RISK_PROFILES]
    norm_num
  have h2 : losingPosition.currentSpread < -0.02 := by
    simp [losingPosition]
    norm_num
  exact ⟨h1, h2, (shouldStopOut_spec losingPosition sampleProfile).2 h1 h2⟩

-- ===========================================================================
-- C2 : monotone position sizing
-- ===========================================================================

/-- Total capital is non-negative when all balances are. -/
theorem getTotalCapital_nonneg (profile : AgentProfile)
    (hb : ∀ kv ∈ profile.balances, 0 ≤ kv.2) : 0 ≤ getTotalCapital profile := by
  apply List.sum_nonneg
  intro x hx
  obtain ⟨kv, hkv, rfl⟩ := List.mem_map.mp hx
  exact hb kv hkv

/-- A balance lookup is non-negative when all balances are. -/
theorem balanceOr0_nonneg (profile : AgentProfile) (exchange : String)
    (hb : ∀ kv ∈ profile.balances, 0 ≤ kv.2) : 0 ≤ balanceOr0 profile exchange := by
  unfold balanceOr0
  cases hfind : profile.balances.find? (fun kv => kv.1 == exchange) with
  | none => simp
  | some kv =>
    simpa using hb kv (List.mem_of_find?_eq_some hfind)

/-- The preset maximum position size percentage is non-negative for
every risk profile type. -/
theorem riskPreset_maxPct_nonneg (type : RiskProfileType) :
    0 ≤ (getRiskProfile type).maxPositionSizePercent := by
  cases type <;> norm_num [getRiskProfile, RISK_PROFILES]

/-- The profile-cap step is non-negative under the claim hypotheses. -/
theorem sizeStep1_nonneg (profile : AgentProfile)
    (hb : ∀ kv ∈ profile.balances, 0 ≤ kv.2)
    (hm : 0 ≤ profile.maxPositionSize) : 0 ≤ sizeStep1 profile := by
  unfold sizeStep1
  have := getTotalCapital_nonneg profile hb
  positivity

/-- The risk-preset step is non-negative under the claim hypotheses. -/
theorem sizeStep2_nonneg (opportunity : Opportunity) (profile : AgentProfile)
    (hb : ∀ kv ∈ profile.balances, 0 ≤ kv.2)
    (hm : 0 ≤ profile.maxPositionSize) : 0 ≤ sizeStep2 opportunity profile := by
  have h1 := balanceOr0_nonneg profile opportunity.long_exchange hb
  have h2 := balanceOr0_nonneg profile opportunity.short_exchange hb
  have h3 := riskPreset_maxPct_nonneg profile.riskProfile
  have h4 := sizeStep1_nonneg profile hb hm
  have h5 : 0 ≤ riskMaxSizeOf opportunity profile := by
    unfold riskMaxSizeOf relevantCapital
    have h6 : 0 ≤ min (balanceOr0 profile opportunity.long_exchange)
        (balanceOr0 profile opportunity.short_exchange) := le_min h1 h2
    have h7 : (0 : ℚ) ≤ (getRiskProfile profile.riskProfile).maxPositionSizePercent / 100 :=
      div_nonneg h3 (by norm_num)
    exact mul_nonneg (mul_nonneg h6 (by norm_num)) h7
  unfold sizeStep2
  split
  · exact h5
  · exact h4

/-- The per-slot step is non-negative under the claim hypotheses. -/
theorem sizeStep3_nonneg (opportunity : Opportunity) (profile : AgentProfile)
    (hb : ∀ kv ∈ profile.balances, 0 ≤ kv.2)
    (hm : 0 ≤ profile.maxPositionSize) : 0 ≤ sizeStep3 opportunity profile := by
  have h1 := getTotalCapital_nonneg profile hb
  have h2 := sizeStep2_nonneg opportunity profile hb hm
  have h3 : 0 ≤ availablePerSlotOf profile := by
    unfold availablePerSlotOf
    positivity
  unfold sizeStep3
  split
  · exact h3
  · exact h2

/-- The risk-multiplier step is non-negative under the claim
hypotheses. -/
theorem sizeStep4_nonneg (opportunity : Opportunity) (profile : AgentProfile)
    (hb : ∀ kv ∈ profile.balances, 0 ≤ kv.2)
    (hm : 0 ≤ profile.maxPositionSize) : 0 ≤ sizeStep4 opportunity profile := by
  have h3 := sizeStep3_nonneg opportunity profile hb hm
  unfold sizeStep4
  split
  · positivity
  · split
    · positivity
    · exact h3

/-- The risk-preset clamp can only shrink the running size. -/
theorem sizeStep2_le_sizeStep1 (opportunity : Opportunity) (profile : AgentProfile) :
    sizeStep2 opportunity profile ≤ sizeStep1 profile := by
  unfold sizeStep2
  split
  · exact le_of_lt (by assumption)
  · exact le_rfl

/-- The per-slot clamp can only shrink the running size. -/
theorem sizeStep3_le_sizeStep2 (opportunity : Opportunity) (profile : AgentProfile) :
    sizeStep3 opportunity profile ≤ sizeStep2 opportunity profile := by
  unfold sizeStep3
  split
  · exact le_of_lt (by assumption)
  · exact le_rfl

/-- The risk multiplier can only shrink the running size when it is
non-negative. -/
theorem sizeStep4_le_sizeStep3 (opportunity : Opportunity) (profile : AgentProfile)
    (hb : ∀ kv ∈ profile.balances, 0 ≤ kv.2)
    (hm : 0 ≤ profile.maxPositionSize) :
    sizeStep4 opportunity profile ≤ sizeStep3 opportunity profile := by
  have h3 := sizeStep3_nonneg opportunity profile hb hm
  unfold sizeStep4
  split
  · linarith
  · split
    · linarith
    · exact le_rfl

/-- C2: for non-negative balances and a max position size percentage in
[0, 100], the size returned by `calculatePositionSize` is at most
`totalCapital * maxPositionSize / 100`, and every step of the sizing
pipeline (profile cap, risk-preset cap, per-slot cap, risk multiplier,
final floor) is at most the previous step. -/
theorem calculatePositionSize_monotone (opportunity : Opportunity)
    (profile : AgentProfile) (currentPositionsCount : ℕ)
    (hb : ∀ kv ∈ profile.balances, 0 ≤ kv.2)
    (hm : 0 ≤ profile.maxPositionSize) (_hm1 : profile.maxPositionSize ≤ 100) :
    (calculatePositionSize opportunity profile currentPositionsCount).size ≤
      getTotalCapital profile * (profile.maxPositionSize / 100) ∧
    sizeStep2 opportunity profile ≤ sizeStep1 profile ∧
    sizeStep3 opportunity profile ≤ sizeStep2 opportunity profile ∧
    sizeStep4 opportunity profile ≤ sizeStep3 opportunity profile ∧
    (calculatePositionSize opportunity profile currentPositionsCount).size ≤
      sizeStep4 opportunity profile := by
  have h1 := sizeStep1_nonneg profile hb hm
  have h21 := sizeStep2_le_sizeStep1 opportunity profile
  have h32 := sizeStep3_le_sizeStep2 opportunity profile
  have h43 := sizeStep4_le_sizeStep3 opportunity profile hb hm
  have h4 := sizeStep4_nonneg opportunity profile hb hm
  have hsize : (calculatePositionSize opportunity profile currentPositionsCount).size ≤
      sizeStep4 opportunity profile := by
    by_cases hslots : (profile.maxOpenPositions : ℤ) - (currentPositionsCount : ℤ) ≤ 0
    · simp only [calculatePositionSize, if_pos hslots]
      exact h4
    · by_cases hsmall : sizeStep4 opportunity profile < 50
      · simp only [calculatePositionSize, if_neg hslots, if_pos hsmall]
        exact h4
      · simp only [calculatePositionSize, if_neg hslots, if_neg hsmall]
        exact_mod_cast Int.floor_le (sizeStep4 opportunity profile)
  refine ⟨?_, h21, h32, h43, hsize⟩
  have : sizeStep1 profile = getTotalCapital profile * (profile.maxPositionSize / 100) :=
    rfl
  linarith

/-- C2 (witness): the sample profile and opportunity satisfy the
hypotheses and all the pipeline inequalities. -/
theorem calculatePositionSize_monotone_witness :
    (∀ kv ∈ sampleProfile.balances, 0 ≤ kv.2) ∧
    (0 ≤ sampleProfile.maxPositionSize ∧ sampleProfile.maxPositionSize ≤ 100) ∧
    (calculatePositionSize sampleOpportunity sampleProfile 0).size ≤
      getTotalCapital sampleProfile * (sampleProfile.maxPositionSize / 100) ∧
    (calculatePositionSize sampleOpportunity sampleProfile 0).size ≤
      sizeStep4 sampleOpportunity sampleProfile := by
  have hb : ∀ kv ∈ sampleProfile.balances, 0 ≤ kv.2 := by
    intro kv hkv
    simp [sampleProfile] at hkv
    rcases hkv with h | h <;> rw [h] <;> norm_num
  have hm : (0 : ℚ) ≤ sampleProfile.maxPositionSize := by
    norm_num [sampleProfile]
  have hm1 : sampleProfile.maxPositionSize ≤ 100 := by
    norm_num [sampleProfile]
  have h := calculatePositionSize_monotone sampleOpportunity sampleProfile 0 hb hm hm1
  exact ⟨hb, ⟨hm, hm1⟩, h.1, h.2.2.2.2⟩

-- ===========================================================================
-- C6 : capital sufficiency gate
-- ===========================================================================

/-- C6: `hasCapitalFor` fails exactly when the long exchange has no
balance entry, the short exchange has no balance entry, the long
available is below `size / 2`, or the short available is below
`size / 2`; the reason names the first failing condition in that
order; and every summary entry's `available` is
`max 0 (total - allocated)`. -/
theorem hasCapitalFor_spec (profile : AgentProfile)
    (positions : List CurrentPosition) (longExchange shortExchange : String)
    (size : ℚ) :
    (∀ b ∈ (calculateBalanceSummary profile positions).balances,
      b.available = max 0 (b.total - allocatedByExchange positions b.exchange)) ∧
    ((hasCapitalFor profile positions longExchange shortExchange size).hasCapital =
        false ↔
      (calculateBalanceSummary profile positions).balances.find?
          (fun b => b.exchange == longExchange) = none ∨
      (calculateBalanceSummary profile positions).balances.find?
          (fun b => b.exchange == shortExchange) = none ∨
      (∃ lb, (calculateBalanceSummary profile positions).balances.find?
          (fun b => b.exchange == longExchange) = some lb ∧
        lb.available < size / 2) ∨
      (∃ sb, (calculateBalanceSummary profile positions).balances.find?
          (fun b => b.exchange == shortExchange) = some sb ∧
        sb.available < size / 2)) ∧
    ((calculateBalanceSummary profile positions).balances.find?
        (fun b => b.exchange == longExchange) = none →
      (hasCapitalFor profile positions longExchange shortExchange size).reason =
        some ("No balance configured for " ++ longExchange)) ∧
    (∀ lb, (calculateBalanceSummary profile positions).balances.find?
        (fun b => b.exchange == longExchange) = some lb →
      (calculateBalanceSummary profile positions).balances.find?
        (fun b => b.exchange == shortExchange) = none →
      (hasCapitalFor profile positions longExchange shortExchange size).reason =
        some ("No balance configured for " ++ shortExchange)) ∧
    (∀ lb sb, (calculateBalanceSummary profile positions).balances.find?
        (fun b => b.exchange == longExchange) = some lb →
      (calculateBalanceSummary profile positions).balances.find?
        (fun b => b.exchange == shortExchange) = some sb →
      lb.available < size / 2 →
      (hasCapitalFor profile positions longExchange shortExchange size).reason =
        some ("Insufficient on " ++ longExchange ++ ": need $" ++ fmt (size / 2) ++
          ", have $" ++ fmt lb.available)) ∧
    (∀ lb sb, (calculateBalanceSummary profile positions).balances.find?
        (fun b => b.exchange == longExchange) = some lb →
      (calculateBalanceSummary profile positions).balances.find?
        (fun b => b.exchange == shortExchange) = some sb →
      ¬lb.available < size / 2 →
      sb.available < size / 2 →
      (hasCapitalFor profile positions longExchange shortExchange size).reason =
        some ("Insufficient on " ++ shortExchange ++ ": need $" ++ fmt (size / 2) ++
          ", have $" ++ fmt sb.available)) := by
  constructor
  · intro b hb
    simp only [calculateBalanceSummary] at hb
    obtain ⟨kv, _, rfl⟩ := List.mem_map.mp hb
    rfl
  unfold hasCapitalFor
  cases hL : (calculateBalanceSummary profile positions).balances.find?
      (fun b => b.exchange == longExchange) with
  | none => simp [hL]
  | some lb =>
    cases hS : (calculateBalanceSummary profile positions).balances.find?
        (fun b => b.exchange == shortExchange) with
    | none => simp [hL, hS]
    | some sb =>
      by_cases h1 : lb.available < size / 2
      · simp [hL, hS, h1]
      · by_cases h2 : sb.available < size / 2
        · simp [hL, hS, h1, h2]
        · simp [hL, hS, h1, h2]
          exact ⟨not_lt.mp h1, fun _ => not_lt.mp h2⟩

/-- C6 (witness): with the sample profile and no positions, a request
whose long exchange `binance` has no balance entry fails with the
missing-long-balance reason. -/
theorem hasCapitalFor_spec_witness :
    (calculateBalanceSummary sampleProfile []).balances.find?
        (fun b => b.exchange == "binance") = none ∧
    (hasCapitalFor sampleProfile [] "binance" "kucoin" 100).hasCapital = false ∧
    (hasCapitalFor sampleProfile [] "binance" "kucoin" 100).reason =
      some ("No balance configured for " ++ "binance") := by
  have h := hasCapitalFor_spec sampleProfile [] "binance" "kucoin" 100
  have hnone : (calculateBalanceSummary sampleProfile []).balances.find?
      (fun b => b.exchange == "binance") = none := by
    simp [calculateBalanceSummary, sampleProfile, allocatedByExchange]
  exact ⟨hnone, h.2.1.mpr (Or.inl hnone), h.2.2.1 hnone⟩

-- ===========================================================================
-- C7 : low-balance rebalancing suggestion
-- ===========================================================================

/-- A list with two distinct members has length at least two. -/
theorem not_length_lt_two_of_two_mem {α : Type} {l : List α} {a b : α}
    (ha : a ∈ l) (hb : b ∈ l) (hne : a ≠ b) : ¬l.length < 2 := by
  match l with
  | [] => cases ha
  | [x] =>
    rw [List.mem_singleton] at ha hb
    exact absurd (ha.trans hb.symm) hne
  | x :: y :: xs => simp

/-- C7 (counterexample): an exchange with `available < 100` while
another has `available > 200`, but with nothing allocated
(`total = available`), does not receive the fixed $100 suggestion: the
code additionally requires `total > available`. Only the half-difference
suggestion (amount 125, not 100) is emitted. -/
theorem generateRebalanceSuggestions_no_alloc_cex :
    generateRebalanceSuggestions
        [{ exchange := "bybit", total := 50, available := 50, allocated := 0,
           margin := 0 },
         { exchange := "kucoin", total := 300, available := 300, allocated := 0,
           margin := 0 }] =
      [{ fromExchange := "kucoin", toExchange := "bybit", amount := 125,
         reason := "Balance kucoin and bybit for better opportunity coverage" }] := by
  norm_num [generateRebalanceSuggestions, List.mergeSort, List.merge]
  rfl

/-- C7 (amended): for every balance list containing an exchange with
`available < 100` and `available < total` (some capital allocated),
when the first other exchange with `available > 200` exists, the fixed
$100 transfer suggestion from that exchange is emitted. -/
theorem generateRebalanceSuggestions_low_balance (balances : List ExchangeBalance)
    (b other : ExchangeBalance) (hb : b ∈ balances) (hlow : b.available < 100)
    (halloc : b.total > b.available)
    (hfind : balances.find? (fun x =>
        x.exchange != b.exchange && decide (x.available > 200)) = some other) :
    { fromExchange := other.exchange
      toExchange := b.exchange
      amount := 100
      reason := b.exchange ++ " running low on available capital" } ∈
      generateRebalanceSuggestions balances := by
  have hmem : other ∈ balances := List.mem_of_find?_eq_some hfind
  have hpred := List.find?_some hfind
  have hne : other ≠ b := by
    intro h
    rw [Bool.and_eq_true, bne_iff_ne] at hpred
    exact hpred.1 (congrArg ExchangeBalance.exchange h)
  have hlen := not_length_lt_two_of_two_mem hmem hb hne
  unfold generateRebalanceSuggestions
  rw [if_neg hlen]
  apply List.mem_append.mpr
  right
  apply List.mem_flatMap.mpr
  refine ⟨b, hb, ?_⟩
  rw [if_pos ⟨hlow, halloc⟩, hfind]
  simp

/-- C7 (witness): a concrete balance list where bybit has $40 available
out of $50 (with $10 allocated) and kucoin has $300 available receives
the fixed $100 suggestion from kucoin. -/
theorem generateRebalanceSuggestions_low_balance_witness :
    { fromExchange := "kucoin"
      toExchange := "bybit"
      amount := 100
      reason := "bybit" ++ " running low on available capital" } ∈
      generateRebalanceSuggestions
        [{ exchange := "bybit", total := 50, available := 40, allocated := 10,
           margin := 2 },
         { exchange := "kucoin", total := 300, available := 300, allocated := 0,
           margin := 0 }] := by
  apply generateRebalanceSuggestions_low_balance _
    { exchange := "bybit", total := 50, available := 40, allocated := 10, margin := 2 }
    { exchange := "kucoin", total := 300, available := 300, allocated := 0, margin := 0 }
  · simp
  · norm_num
  · norm_num
  · norm_num [List.find?]
    rfl

-- ===========================================================================
-- C5 : ranked selection and the positions-maxed warning
-- ===========================================================================

/-- Strings with different first characters are different. -/
theorem string_head_ne {s t : String} (h : s.data.head? ≠ t.data.head?) : s ≠ t :=
  fun he => h (congrArg (fun u => u.data.head?) he)

/-- A JavaScript slice from index zero is a sublist of its input. -/
theorem jsSlice0_sublist {α : Type} (n : ℤ) (l : List α) :
    (jsSlice0 n l).Sublist l := by
  unfold jsSlice0
  split
  · exact List.take_sublist _ _
  · exact List.take_sublist _ _

/-- With no remaining position slots, `calculatePositionSize` returns
size zero. -/
theorem calculatePositionSize_zero_of_full (opportunity : Opportunity)
    (profile : AgentProfile) (count : ℕ)
    (h : (profile.maxOpenPositions : ℤ) - (count : ℤ) ≤ 0) :
    (calculatePositionSize opportunity profile count).size = 0 := by
  simp only [calculatePositionSize, if_pos h]

/-- With no remaining position slots, every opportunity analysis is
dropped. -/
theorem analyzeOpportunity_none_of_full (profile : AgentProfile)
    (positions : List CurrentPosition) (opportunity : Opportunity)
    (h : (profile.maxOpenPositions : ℤ) - (positions.length : ℤ) ≤ 0) :
    analyzeOpportunity profile positions opportunity = none := by
  have hsize := calculatePositionSize_zero_of_full opportunity profile
    positions.length h
  simp [analyzeOpportunity, hsize]

/-- With no remaining position slots, the scored candidate list is
empty. -/
theorem scoredCandidates_nil_of_full (profile : AgentProfile)
    (positions : List CurrentPosition) (opportunities : List Opportunity)
    (h : (profile.maxOpenPositions : ℤ) - (positions.length : ℤ) ≤ 0) :
    scoredCandidates profile positions opportunities = [] := by
  unfold scoredCandidates
  rw [List.filterMap_eq_nil_iff.mpr
    (fun a _ => analyzeOpportunity_none_of_full profile positions a h)]
  exact List.mergeSort_nil

/-- The positions-maxed warning occurs in the assembled warning list
exactly when `remainingSlots = 0`: the other warning strings all start
with a different character. -/
theorem maxPositionsWarning_mem_iff (profile : AgentProfile)
    (positions : List CurrentPosition) (remainingSlots : ℤ)
    (capitalUtilization progressToTarget : ℚ)
    (selectedOpportunities : List RecommendedOpportunity) :
    maxPositionsWarning ∈ recommendationWarnings profile positions remainingSlots
        capitalUtilization progressToTarget selectedOpportunities ↔
      remainingSlots = 0 := by
  unfold recommendationWarnings
  constructor
  · intro hmem
    by_contra hne
    rw [if_neg hne, List.nil_append] at hmem
    rcases List.mem_append.mp hmem with h1 | hrest
    · by_cases hc : capitalUtilization < 50 ∧ selectedOpportunities.length = 0
      · rw [if_pos hc, List.mem_singleton] at h1
        exact absurd h1 (by decide)
      · rw [if_neg hc] at h1
        cases h1
    · rcases List.mem_append.mp hrest with h2 | h3
      · by_cases hc : progressToTarget < 50
        · rw [if_pos hc, List.mem_singleton] at h2
          have h4 : maxPositionsWarning.data.head? = some 'M' := rfl
          have h5 : ("Only at " ++ fmt progressToTarget ++
              "% of daily target.").data.head? = some 'O' := rfl
          rw [h2, h5] at h4
          simp at h4
        · rw [if_neg hc] at h2
          cases h2
      · obtain ⟨pos, _, hsome⟩ := List.mem_filterMap.mp h3
        by_cases hstop : (shouldStopOut pos profile).shouldStop
        · simp only [hstop, if_true] at hsome
          have heq := Option.some.inj hsome
          have h4 : maxPositionsWarning.data.head? = some 'M' := rfl
          have h5 : ("⚠️ " ++ pos.symbol ++ ": " ++
              (shouldStopOut pos profile).reason.getD "").data.head? =
              some '⚠' := rfl
          rw [← heq, h5] at h4
          simp at h4
        · simp only [hstop, if_false] at hsome
          cases hsome
  · intro h0
    rw [if_pos h0]
    exact List.mem_append.mpr (Or.inl (List.mem_singleton.mpr rfl))

/-- C5 (counterexample): with `maxOpenPositions = 1` and two open
positions (`remainingSlots = -1 ≤ 0`), the claim demands the
maximum-positions warning, but the code emits it only when
`remainingSlots === 0`, so it is absent. -/
theorem getRecommendations_negative_slots_cex :
    (({ sampleProfile with maxOpenPositions := 1 } :
        AgentProfile).maxOpenPositions : ℤ) -
      (([losingPosition, losingPosition] : List CurrentPosition).length : ℤ) ≤ 0 ∧
    maxPositionsWarning ∉
      (getRecommendationsCore { sampleProfile with maxOpenPositions := 1 }
        [losingPosition, losingPosition] []).warnings := by
  constructor
  · norm_num
  · intro hmem
    have h0 := (maxPositionsWarning_mem_iff _ _ _ _ _ _).mp hmem
    norm_num at h0

/-- C5 (amended): the recommendation list is always sorted descending
by score; for a non-negative slot count it is the first
`maxOpenPositions - currentPositions.length` scored candidates; and
whenever `maxOpenPositions - currentPositions.length ≤ 0` the
recommendation list is empty (every candidate is dropped at the sizing
step), while the maximum-positions warning is emitted exactly when
`maxOpenPositions - currentPositions.length = 0`, not when it is
negative. -/
theorem getRecommendations_slots_spec (profile : AgentProfile)
    (positions : List CurrentPosition) (opportunities : List Opportunity) :
    List.Pairwise (fun a b => b.score ≤ a.score)
      (getRecommendationsCore profile positions opportunities).opportunities ∧
    (0 ≤ (profile.maxOpenPositions : ℤ) - (positions.length : ℤ) →
      (getRecommendationsCore profile positions opportunities).opportunities =
        (scoredCandidates profile positions opportunities).take
          ((profile.maxOpenPositions : ℤ) - (positions.length : ℤ)).toNat) ∧
    ((profile.maxOpenPositions : ℤ) - (positions.length : ℤ) ≤ 0 →
      (getRecommendationsCore profile positions opportunities).opportunities = [] ∧
      (maxPositionsWarning ∈
          (getRecommendationsCore profile positions opportunities).warnings ↔
        (profile.maxOpenPositions : ℤ) - (positions.length : ℤ) = 0)) := by
  have hopp : (getRecommendationsCore profile positions opportunities).opportunities =
      jsSlice0 ((profile.maxOpenPositions : ℤ) - (positions.length : ℤ))
        (scoredCandidates profile positions opportunities) := rfl
  refine ⟨?_, ?_, ?_⟩
  · have htrans : ∀ a b c : RecommendedOpportunity,
        decide (b.score ≤ a.score) = true → decide (c.score ≤ b.score) = true →
        decide (c.score ≤ a.score) = true := by
      intro a b c h1 h2
      simp only [decide_eq_true_eq] at h1 h2 ⊢
      exact le_trans h2 h1
    have htotal : ∀ a b : RecommendedOpportunity,
        (decide (b.score ≤ a.score) || decide (a.score ≤ b.score)) = true := by
      intro a b
      simp only [Bool.or_eq_true, decide_eq_true_eq]
      exact le_total b.score a.score
    have hs := List.sorted_mergeSort htrans htotal
      ((opportunities.filter (fun opp => profile.minSpread ≤ opp.spread)).filterMap
        (analyzeOpportunity profile positions))
    rw [hopp]
    have hsub := jsSlice0_sublist
      ((profile.maxOpenPositions : ℤ) - (positions.length : ℤ))
      (scoredCandidates profile positions opportunities)
    exact (List.Pairwise.sublist hsub hs).imp (fun h => of_decide_eq_true h)
  · intro h
    rw [hopp]
    unfold jsSlice0
    rw [if_neg (not_lt.mpr h)]
  · intro h
    constructor
    · rw [hopp, scoredCandidates_nil_of_full profile positions opportunities h]
      unfold jsSlice0
      split <;> simp
    · exact maxPositionsWarning_mem_iff _ _ _ _ _ _

/-- C5 (witness): at the concrete over-full state, the amended theorem
yields an empty recommendation list. -/
theorem getRecommendations_slots_spec_witness :
    (getRecommendationsCore { sampleProfile with maxOpenPositions := 1 }
        [losingPosition, losingPosition] []).opportunities = [] ∧
    List.Pairwise (fun a b => b.score ≤ a.score)
      (getRecommendationsCore { sampleProfile with maxOpenPositions := 1 }
        [losingPosition, losingPosition] []).opportunities := by
  have hle : (({ sampleProfile with maxOpenPositions := 1 } :
      AgentProfile).maxOpenPositions : ℤ) -
      (([losingPosition, losingPosition] : List CurrentPosition).length : ℤ) ≤ 0 := by
    norm_num
  have h := getRecommendations_slots_spec { sampleProfile with maxOpenPositions := 1 }
    [losingPosition, losingPosition] []
  exact ⟨(h.2.2 hle).1, h.1⟩

-- ===========================================================================
-- C8 : failure semantics of the engine methods
-- ===========================================================================

/-- C8 (counterexample): `setDailyTarget` throws the range error on a
fully configured engine, so "throws if and only if no profile is
configured" fails for it. -/
theorem setDailyTarget_range_cex :
    (⟨some sampleProfile, []⟩ : EngineState).profile ≠ none ∧
    setDailyTargetE ⟨some sampleProfile, []⟩ 150 "2026-02-03" =
      Except.error "Daily target must be between 0 and 100%" := by
  constructor
  · simp
  · norm_num [setDailyTargetE]

/-- C8 (amended): `getRecommendations`, `checkTargetProgress` and
`setRiskProfile` fail exactly when no profile is configured;
`setDailyTarget` fails exactly when no profile is configured or the
target lies outside [0, 100]; the unconfigured error is the no-profile
message in all four; a failing portfolio fetch leaves the position
snapshot unchanged; and replacing every failing pair fetch by an empty
success changes nothing — a failing pair contributes no
opportunities. -/
theorem engine_failure_semantics (st : EngineState) (now : ℚ) (nowS : String)
    (target : ℚ) (type : RiskProfileType)
    (portfolioResult : Except Unit Portfolio)
    (fetch : String → Except Unit (List Opportunity)) :
    ((getRecommendationsE st now portfolioResult fetch).isOk = true ↔
      st.profile ≠ none) ∧
    ((checkTargetProgressE st now portfolioResult).isOk = true ↔
      st.profile ≠ none) ∧
    ((setRiskProfileE st type nowS).isOk = true ↔ st.profile ≠ none) ∧
    ((setDailyTargetE st target nowS).isOk = true ↔
      (st.profile ≠ none ∧ 0 ≤ target ∧ target ≤ 100)) ∧
    (st.profile = none →
      getRecommendationsE st now portfolioResult fetch =
          Except.error noProfileError ∧
      checkTargetProgressE st now portfolioResult = Except.error noProfileError ∧
      setRiskProfileE st type nowS = Except.error noProfileError ∧
      setDailyTargetE st target nowS = Except.error noProfileError) ∧
    (refreshedPositions now st.currentPositions (Except.error ()) =
      st.currentPositions) ∧
    (∀ p : AgentProfile, ∀ fetch2 : String → Except Unit (List Opportunity),
      (∀ pair, fetch2 pair = match fetch pair with
        | .ok opps => .ok opps
        | .error _ => .ok []) →
      fetchAllOpportunities p fetch2 = fetchAllOpportunities p fetch) := by
  refine ⟨?_, ?_, ?_, ?_, ?_, rfl, ?_⟩
  · cases hp : st.profile with
    | none => simp [getRecommendationsE, hp, Except.isOk, Except.toBool]
    | some p => simp [getRecommendationsE, hp, Except.isOk, Except.toBool]
  · cases hp : st.profile with
    | none => simp [checkTargetProgressE, hp, Except.isOk, Except.toBool]
    | some p => simp [checkTargetProgressE, hp, Except.isOk, Except.toBool]
  · cases hp : st.profile with
    | none => simp [setRiskProfileE, hp, Except.isOk, Except.toBool]
    | some p => simp [setRiskProfileE, hp, Except.isOk, Except.toBool]
  · cases hp : st.profile with
    | none => simp [setDailyTargetE, hp, Except.isOk, Except.toBool]
    | some p =>
      by_cases ht : target < 0 ∨ target > 100
      · simp only [setDailyTargetE, hp, if_pos ht, Except.isOk, Except.toBool]
        constructor
        · intro h
          cases h
        · rintro ⟨_, h0, h100⟩
          rcases ht with ht | ht <;> exfalso <;> linarith
      · simp only [setDailyTargetE, hp, if_neg ht, Except.isOk, Except.toBool]
        push_neg at ht
        simp [le_of_lt, ht.1, ht.2]
  · intro hp
    simp [getRecommendationsE, checkTargetProgressE, setRiskProfileE,
      setDailyTargetE, hp]
  · intro p fetch2 hf
    unfold fetchAllOpportunities
    have hfun : (fun pair => match fetch2 pair with
        | .ok opps => opps
        | .error _ => ([] : List Opportunity)) =
        (fun pair => match fetch pair with
        | .ok opps => opps
        | .error _ => []) := by
      funext pair
      rw [hf pair]
      cases fetch pair <;> rfl
    rw [hfun]

/-- C8 (witness): an unconfigured engine fails with the no-profile
message, and replacing a totally failing fetch by an empty-success
fetch yields the same (empty) opportunity pool. -/
theorem engine_failure_semantics_witness :
    getRecommendationsE ⟨none, []⟩ 0 (Except.error ()) (fun _ => Except.error ()) =
      Except.error noProfileError ∧
    fetchAllOpportunities sampleProfile (fun _ => Except.ok []) =
      fetchAllOpportunities sampleProfile (fun _ => Except.error ()) := by
  have h := engine_failure_semantics ⟨none, []⟩ 0 "2026-02-03" 50
    RiskProfileType.moderate (Except.error ()) (fun _ => Except.error ())
  exact ⟨(h.2.2.2.2.1 rfl).1,
    h.2.2.2.2.2.2 sampleProfile (fun _ => Except.ok []) (fun pair => rfl)⟩

-- ===========================================================================
-- C9 : portfolio-derived positions have zero spreads
-- ===========================================================================

/-- For a position whose current spread is zero, a stop-out can only be
triggered by the loss check, with the loss reason. -/
theorem shouldStopOut_zero_spread (position : CurrentPosition)
    (profile : AgentProfile) (hsp : position.currentSpread = 0) :
    (shouldStopOut position profile).shouldStop = true →
      (shouldStopOut position profile).reason =
        some ("Loss (" ++ fmt position.unrealizedPnlPercent ++
          "%) exceeds stop loss (" ++
          fmt (getRiskProfile profile.riskProfile).stopLossPercent ++ "%)") := by
  unfold shouldStopOut
  by_cases h1 : position.unrealizedPnlPercent <
      -(getRiskProfile profile.riskProfile).stopLossPercent
  · simp [h1]
  · simp [h1, hsp]

/-- C9: every position extracted from the portfolio has
`entrySpread = 0` and `currentSpread = 0`, so `shouldStopOut` can never
return the spread-inversion reason for it: whenever it triggers, the
reason is the loss message. -/
theorem extractPositions_zero_spread (now : ℚ) (portfolio : Portfolio)
    (profile : AgentProfile) :
    ∀ pos ∈ extractPositionsFromPortfolio now portfolio,
      pos.entrySpread = 0 ∧ pos.currentSpread = 0 ∧
      ((shouldStopOut pos profile).shouldStop = true →
        (shouldStopOut pos profile).reason =
          some ("Loss (" ++ fmt pos.unrealizedPnlPercent ++
            "%) exceeds stop loss (" ++
            fmt (getRiskProfile profile.riskProfile).stopLossPercent ++ "%)")) := by
  intro pos hpos
  unfold extractPositionsFromPortfolio at hpos
  obtain ⟨e, _, rfl⟩ := List.mem_map.mp hpos
  exact ⟨rfl, rfl, shouldStopOut_zero_spread _ profile rfl⟩

/-- Sample portfolio with a single running execution deep in loss. -/
def samplePortfolio : Portfolio :=
  { executions := [
      { execution :=
          { id := "exec-1"
            symbol := "BTCUSDT"
            pair := "BTCUSDT"
            long_exchange := "bybit"
            short_exchange := "kucoin"
            input_amount := 100
            status := "running"
            created_at := 0 }
        pnl := { unrealized_pnl := -5, total_pnl_pct := -0.05 }
        funding := { net_funding := 1 } } ] }

/-- The position `extractPositionsFromPortfolio` derives from the
sample portfolio at `now = 3600000` ms. -/
def extractedSamplePos : CurrentPosition :=
  { executionId := "exec-1"
    symbol := "BTCUSDT"
    pair := "BTCUSDT"
    longExchange := "bybit"
    shortExchange := "kucoin"
    size := 100
    entrySpread := 0
    currentSpread := 0
    unrealizedPnl := -5
    unrealizedPnlPercent := -0.05 * 100
    hoursOpen := (3600000 - 0) / (1000 * 60 * 60)
    expectedDailyReturn := 1 / 100 * 100 * 3 }

/-- C9 (witness): the sample portfolio yields exactly the sample
position; it stops out under the conservative preset and the reason is
the loss message, not the spread message. -/
theorem extractPositions_zero_spread_witness :
    extractedSamplePos ∈ extractPositionsFromPortfolio 3600000 samplePortfolio ∧
    extractedSamplePos.entrySpread = 0 ∧ extractedSamplePos.currentSpread = 0 ∧
    (shouldStopOut extractedSamplePos sampleProfile).shouldStop = true ∧
    (shouldStopOut extractedSamplePos sampleProfile).reason =
      some ("Loss (" ++ fmt extractedSamplePos.unrealizedPnlPercent ++
        "%) exceeds stop loss (" ++
        fmt (getRiskProfile sampleProfile.riskProfile).stopLossPercent ++ "%)") := by
  have hlist : extractPositionsFromPortfolio 3600000 samplePortfolio =
      [extractedSamplePos] := rfl
  have hmem : extractedSamplePos ∈ extractPositionsFromPortfolio 3600000
      samplePortfolio := by
    rw [hlist]
    exact List.mem_singleton.mpr rfl
  have hstop : (shouldStopOut extractedSamplePos sampleProfile).shouldStop = true := by
    simp [shouldStopOut, extractedSamplePos, sampleProfile, getRiskProfile,
      RISK_PROFILES]
    norm_num
  have h := extractPositions_zero_spread 3600000 samplePortfolio sampleProfile
    extractedSamplePos hmem
  exact ⟨hmem, h.1, h.2.1, hstop, h.2.2 hstop⟩

-- ===========================================================================
-- C10 : setRiskProfile frame
-- ===========================================================================

/-- C10: on a configured engine, `setRiskProfile` rewrites exactly
`riskProfile`, `minSpread` (to the preset value: 0.05 conservative,
0.03 moderate, 0.01 aggressive) and `updatedAt`; every other profile
field and the position snapshot are unchanged. -/
theorem setRiskProfile_frame (st : EngineState) (profile : AgentProfile)
    (type : RiskProfileType) (now : String) (h : st.profile = some profile) :
    ∃ profile2 : AgentProfile,
      setRiskProfileE st type now =
        Except.ok { profile := some profile2
                    currentPositions := st.currentPositions } ∧
      profile2.riskProfile = type ∧
      profile2.minSpread = (getRiskProfile type).minSpread ∧
      (getRiskProfile RiskProfileType.conservative).minSpread = 0.05 ∧
      (getRiskProfile RiskProfileType.moderate).minSpread = 0.03 ∧
      (getRiskProfile RiskProfileType.aggressive).minSpread = 0.01 ∧
      profile2.updatedAt = some now ∧
      profile2.balances = profile.balances ∧
      profile2.dailyTarget = profile.dailyTarget ∧
      profile2.maxPositionSize = profile.maxPositionSize ∧
      profile2.maxOpenPositions = profile.maxOpenPositions ∧
      profile2.exchanges = profile.exchanges ∧
      profile2.createdAt = profile.createdAt := by
  refine ⟨{ profile with
              riskProfile := type
              minSpread := (getRiskProfile type).minSpread
              updatedAt := some now },
    ?_, rfl, rfl, rfl, rfl, rfl, rfl, rfl, rfl, rfl, rfl, rfl, rfl⟩
  unfold setRiskProfileE
  rw [h]

/-- C10 (witness): switching the sample profile to aggressive rewrites
`minSpread` to 0.01 and keeps the balances. -/
theorem setRiskProfile_frame_witness :
    ∃ profile2 : AgentProfile,
      setRiskProfileE ⟨some sampleProfile, []⟩ RiskProfileType.aggressive
          "2026-02-03" =
        Except.ok { profile := some profile2, currentPositions := [] } ∧
      profile2.riskProfile = RiskProfileType.aggressive ∧
      profile2.minSpread = 0.01 ∧
      profile2.balances = sampleProfile.balances := by
  obtain ⟨p2, h1, hrp, hms, _, _, ha, _, hb, _⟩ :=
    setRiskProfile_frame ⟨some sampleProfile, []⟩ sampleProfile
      RiskProfileType.aggressive "2026-02-03" rfl
  exact ⟨p2, h1, hrp, hms.trans ha, hb⟩

end Zirodelta
